import Mathlib

/-!
Verification of the configuration contract of `src/tailwind.config.js`.

The repository ships a single declarative configuration object.  The data
model below is translated from that source file; the loader, serializer and
build-time consumption are modelled from the specification, which assigns
them to the (out-of-repository) loading component and external compiler.
-/

/-- Value of a design-token entry inside `theme.extend`: a string literal, a
number, or a nested mapping (modelled as an ordered association list so that
key order is preserved). -/
inductive ThemeValue where
  | str : String → ThemeValue
  | num : Int → ThemeValue
  | table : List (String × ThemeValue) → ThemeValue

/-- The `content` block of the configuration: an ordered sequence of
glob-pattern strings (`files`). -/
structure Content where
  files : List String
deriving DecidableEq

/-- The `theme` block of the configuration: the additive `extend` mapping,
kept as an ordered association list from category name to token table. -/
structure Theme where
  extend : List (String × ThemeValue)

/-- Raw textual/structured representation of the configuration, before
validation: the four top-level keys of `src/tailwind.config.js`, with
`darkMode` still a free-form string. -/
structure RawConfig where
  content : Content
  darkMode : String
  theme : Theme
  plugins : List String

/-- The two recognized dark-mode strategies, as a closed enumeration. -/
inductive DarkMode where
  | media
  | «class»
deriving DecidableEq

/-- Validated in-memory configuration object: same four fields, with
`darkMode` now a member of the closed enumeration. -/
structure BuildConfig where
  content : Content
  darkMode : DarkMode
  theme : Theme
  plugins : List String

/-- The shipped configuration object, field for field the literal of
`src/tailwind.config.js`: `content.files = ["src/**/*.rs", "index.html"]`,
`darkMode = "media"`, `theme.extend = {}`, `plugins = []`. -/
def tailwindConfig : RawConfig :=
  { content := { files := ["src/**/*.rs", "index.html"] }
    darkMode := "media"
    theme := { extend := [] }
    plugins := [] }

/-- Error signalled by the loading component for a structurally invalid
configuration. -/
inductive LoadError where
  | configurationError
deriving DecidableEq

/-- Modelled from the spec: recognition of the `darkMode` enum by the
loading component (missing from `src/`, which holds only the data
literal).  Exactly `"media"` and `"class"` are recognized. -/
def parseDarkMode (s : String) : Option DarkMode :=
  if s = "media" then some DarkMode.media
  else if s = "class" then some DarkMode.«class»
  else none

/-- Modelled from the spec: rendering of a dark-mode strategy back to its
textual form, used when re-serializing a loaded configuration. -/
def serializeDarkMode : DarkMode → String
  | DarkMode.media => "media"
  | DarkMode.«class» => "class"

/-- Modelled from the spec: the loading component (missing from `src/`).
It rejects an empty `content.files` and an unrecognized `darkMode` with a
`ConfigurationError`, and otherwise carries every field over unmodified. -/
def load (raw : RawConfig) : Except LoadError BuildConfig :=
  if raw.content.files = [] then Except.error LoadError.configurationError
  else
    match parseDarkMode raw.darkMode with
    | none => Except.error LoadError.configurationError
    | some dm =>
        Except.ok
          { content := raw.content
            darkMode := dm
            theme := raw.theme
            plugins := raw.plugins }

/-- Modelled from the spec: re-serialization of a loaded configuration into
the textual schema (round-trip direction of §6). -/
def serialize (cfg : BuildConfig) : RawConfig :=
  { content := cfg.content
    darkMode := serializeDarkMode cfg.darkMode
    theme := cfg.theme
    plugins := cfg.plugins }

/-- One of the four fields the external compiler may read during a build. -/
inductive FieldRead where
  | contentFiles
  | darkModeField
  | themeExtend
  | pluginsField

/-- Result of one read of a configuration field. -/
inductive ReadResult where
  | files : List String → ReadResult
  | mode : DarkMode → ReadResult
  | themeTable : List (String × ThemeValue) → ReadResult
  | pluginList : List String → ReadResult

/-- Modelled from the spec: a single read of a configuration field by the
external compiler.  Reading copies the value out and returns the
configuration state unchanged. -/
def readField (cfg : BuildConfig) : FieldRead → ReadResult × BuildConfig
  | FieldRead.contentFiles => (ReadResult.files cfg.content.files, cfg)
  | FieldRead.darkModeField => (ReadResult.mode cfg.darkMode, cfg)
  | FieldRead.themeExtend => (ReadResult.themeTable cfg.theme.extend, cfg)
  | FieldRead.pluginsField => (ReadResult.pluginList cfg.plugins, cfg)

/-- Modelled from the spec: a build invocation, rendered as explicit state
passing — the configuration object is read zero or more times and the final
configuration state is returned alongside the collected read results. -/
def runBuild (cfg : BuildConfig) : List FieldRead → List ReadResult × BuildConfig
  | [] => ([], cfg)
  | f :: fs =>
      let step := readField cfg f
      let rest := runBuild step.2 fs
      (step.1 :: rest.1, rest.2)

/-- Helper: a recognized `darkMode` string serializes back to itself. -/
theorem parseDarkMode_serialize (s : String) (dm : DarkMode)
    (h : parseDarkMode s = some dm) : serializeDarkMode dm = s := by
  unfold parseDarkMode at h
  by_cases h1 : s = "media"
  · simp [h1] at h
    subst h1
    rw [← h]
    rfl
  · by_cases h2 : s = "class"
    · simp [h1, h2] at h
      subst h2
      rw [← h]
      rfl
    · simp [h1, h2] at h

/-- Helper: a string that is neither `"media"` nor `"class"` is not
recognized. -/
theorem parseDarkMode_none (s : String) (h1 : s ≠ "media")
    (h2 : s ≠ "class") : parseDarkMode s = none := by
  simp [parseDarkMode, h1, h2]

/-- C1: loading the configuration with `content.files = ["src/**/*.ext",
"index.html"]`, `darkMode = "media"`, `theme.extend = {}`, `plugins = []`
succeeds, and every field of the result equals the literal input exactly. -/
theorem identity_scenario :
    load
      { content := { files := ["src/**/*.ext", "index.html"] }
        darkMode := "media"
        theme := { extend := [] }
        plugins := [] } =
    Except.ok
      { content := { files := ["src/**/*.ext", "index.html"] }
        darkMode := DarkMode.media
        theme := { extend := [] }
        plugins := [] } := by
  rfl

/-- C2: every configuration whose `content.files` is the empty sequence is
rejected with a `ConfigurationError` on load. -/
theorem empty_files_rejected (raw : RawConfig)
    (h : raw.content.files = []) :
    load raw = Except.error LoadError.configurationError := by
  simp [load, h]

/-- C2 witness: the rejection theorem applied at a concrete configuration
with empty `content.files`. -/
theorem empty_files_rejected_witness :
    load
      { content := { files := [] }
        darkMode := "media"
        theme := { extend := [] }
        plugins := [] } =
    Except.error LoadError.configurationError :=
  empty_files_rejected
    { content := { files := [] }
      darkMode := "media"
      theme := { extend := [] }
      plugins := [] } rfl

/-- C3: a `darkMode` value outside `{"media", "class"}` always yields a
`ConfigurationError` on load, and exactly those two values are accepted
(any configuration with non-empty `content.files` and one of the two
recognized values loads successfully). -/
theorem darkMode_enum_exact (raw : RawConfig) :
    (raw.darkMode ≠ "media" → raw.darkMode ≠ "class" →
      load raw = Except.error LoadError.configurationError) ∧
    (raw.content.files ≠ [] →
      (raw.darkMode = "media" ∨ raw.darkMode = "class") →
      ∃ cfg, load raw = Except.ok cfg) := by
  constructor
  · intro h1 h2
    unfold load
    by_cases hf : raw.content.files = []
    · simp [hf]
    · simp [hf, parseDarkMode_none raw.darkMode h1 h2]
  · intro hf hd
    rcases hd with h | h
    · exact ⟨{ content := raw.content, darkMode := DarkMode.media,
               theme := raw.theme, plugins := raw.plugins },
        by simp [load, hf, parseDarkMode, h]⟩
    · exact ⟨{ content := raw.content, darkMode := DarkMode.«class»,
               theme := raw.theme, plugins := raw.plugins },
        by simp [load, hf, parseDarkMode, h]⟩

/-- C3 witness: the enum theorem applied at a configuration whose
`darkMode` is the unrecognized value `"auto"`. -/
theorem darkMode_enum_exact_witness :
    load
      { content := { files := ["index.html"] }
        darkMode := "auto"
        theme := { extend := [] }
        plugins := [] } =
    Except.error LoadError.configurationError :=
  (darkMode_enum_exact
    { content := { files := ["index.html"] }
      darkMode := "auto"
      theme := { extend := [] }
      plugins := [] }).1 (by decide) (by decide)

/-- C4: loading a raw configuration and re-serializing the result yields
the original raw configuration (round-trip law on valid configurations). -/
theorem load_serialize_roundtrip (raw : RawConfig) (cfg : BuildConfig)
    (h : load raw = Except.ok cfg) : serialize cfg = raw := by
  unfold load at h
  by_cases hf : raw.content.files = []
  · simp [hf] at h
  · simp only [hf, if_false] at h
    cases hp : parseDarkMode raw.darkMode with
    | none => rw [hp] at h; exact absurd h (by simp)
    | some dm =>
        rw [hp] at h
        simp only [Except.ok.injEq] at h
        subst h
        unfold serialize
        simp [parseDarkMode_serialize raw.darkMode dm hp]

/-- C4 witness: the round-trip theorem applied to the shipped
configuration. -/
theorem load_serialize_roundtrip_witness :
    serialize
      { content := { files := ["src/**/*.rs", "index.html"] }
        darkMode := DarkMode.media
        theme := { extend := [] }
        plugins := [] } = tailwindConfig :=
  load_serialize_roundtrip tailwindConfig
    { content := { files := ["src/**/*.rs", "index.html"] }
      darkMode := DarkMode.media
      theme := { extend := [] }
      plugins := [] } rfl

/-- C5: the loaded object preserves the `plugins` sequence exactly as
given, in the same order, unmodified. -/
theorem plugins_preserved (raw : RawConfig) (cfg : BuildConfig)
    (h : load raw = Except.ok cfg) : cfg.plugins = raw.plugins := by
  unfold load at h
  by_cases hf : raw.content.files = []
  · simp [hf] at h
  · simp only [hf, if_false] at h
    cases hp : parseDarkMode raw.darkMode with
    | none => rw [hp] at h; exact absurd h (by simp)
    | some dm =>
        rw [hp] at h
        simp only [Except.ok.injEq] at h
        subst h
        rfl

/-- C5 witness: the preservation theorem applied at `plugins = ["pluginA",
"pluginB"]`. -/
theorem plugins_preserved_witness :
    ({ content := { files := ["index.html"] }
       darkMode := DarkMode.media
       theme := { extend := [] }
       plugins := ["pluginA", "pluginB"] } : BuildConfig).plugins =
    ["pluginA", "pluginB"] :=
  plugins_preserved
    { content := { files := ["index.html"] }
      darkMode := "media"
      theme := { extend := [] }
      plugins := ["pluginA", "pluginB"] }
    { content := { files := ["index.html"] }
      darkMode := DarkMode.media
      theme := { extend := [] }
      plugins := ["pluginA", "pluginB"] } rfl

/-- C6: the loaded object preserves the `theme.extend` nested mapping
exactly as given — same entries, same order, no coercion. -/
theorem theme_extend_preserved (raw : RawConfig) (cfg : BuildConfig)
    (h : load raw = Except.ok cfg) : cfg.theme.extend = raw.theme.extend := by
  unfold load at h
  by_cases hf : raw.content.files = []
  · simp [hf] at h
  · simp only [hf, if_false] at h
    cases hp : parseDarkMode raw.darkMode with
    | none => rw [hp] at h; exact absurd h (by simp)
    | some dm =>
        rw [hp] at h
        simp only [Except.ok.injEq] at h
        subst h
        rfl

/-- C6 witness: the preservation theorem applied at `theme.extend =
\x7b"colors": \x7b"brand": "#123456"\x7d\x7d`. -/
theorem theme_extend_preserved_witness :
    ({ content := { files := ["index.html"] }
       darkMode := DarkMode.media
       theme :=
         { extend :=
             [("colors", ThemeValue.table [("brand", ThemeValue.str "#123456")])] }
       plugins := [] } : BuildConfig).theme.extend =
    [("colors", ThemeValue.table [("brand", ThemeValue.str "#123456")])] :=
  theme_extend_preserved
    { content := { files := ["index.html"] }
      darkMode := "media"
      theme :=
        { extend :=
            [("colors", ThemeValue.table [("brand", ThemeValue.str "#123456")])] }
      plugins := [] }
    { content := { files := ["index.html"] }
      darkMode := DarkMode.media
      theme :=
        { extend :=
            [("colors", ThemeValue.table [("brand", ThemeValue.str "#123456")])] }
      plugins := [] } rfl

/-- C7: loading the same raw configuration twice yields objects that are
field-wise equal — the loader is a deterministic function of its input. -/
theorem load_deterministic (raw : RawConfig) (c1 c2 : BuildConfig)
    (h1 : load raw = Except.ok c1) (h2 : load raw = Except.ok c2) :
    c1.content = c2.content ∧ c1.darkMode = c2.darkMode ∧
    c1.theme = c2.theme ∧ c1.plugins = c2.plugins := by
  rw [h1] at h2
  simp only [Except.ok.injEq] at h2
  subst h2
  exact ⟨rfl, rfl, rfl, rfl⟩

/-- C7 witness: determinism applied to two loads of the shipped
configuration. -/
theorem load_deterministic_witness :
    ({ content := { files := ["src/**/*.rs", "index.html"] }
       darkMode := DarkMode.media
       theme := { extend := [] }
       plugins := [] } : BuildConfig).darkMode = DarkMode.media :=
  (load_deterministic tailwindConfig
    { content := { files := ["src/**/*.rs", "index.html"] }
      darkMode := DarkMode.media
      theme := { extend := [] }
      plugins := [] }
    { content := { files := ["src/**/*.rs", "index.html"] }
      darkMode := DarkMode.media
      theme := { extend := [] }
      plugins := [] } rfl rfl).2.1.trans rfl

/-- C8: a build invocation never mutates the loaded configuration — after
any sequence of field reads, the configuration state equals the initial
one. -/
theorem config_immutable_during_build (cfg : BuildConfig)
    (reads : List FieldRead) : (runBuild cfg reads).2 = cfg := by
  induction reads generalizing cfg with
  | nil => rfl
  | cons f fs ih =>
      unfold runBuild
      cases f <;> exact ih cfg

/-- C9: an empty `plugins` sequence is valid — a configuration with
non-empty `content.files`, a recognized `darkMode` and `plugins = []`
loads successfully, with no plugins in the result. -/
theorem empty_plugins_valid (raw : RawConfig) (hp : raw.plugins = [])
    (hf : raw.content.files ≠ [])
    (hd : raw.darkMode = "media" ∨ raw.darkMode = "class") :
    ∃ cfg, load raw = Except.ok cfg ∧ cfg.plugins = [] := by
  rcases hd with h | h
  · exact ⟨{ content := raw.content, darkMode := DarkMode.media,
             theme := raw.theme, plugins := raw.plugins },
      by simp [load, hf, parseDarkMode, h], hp⟩
  · exact ⟨{ content := raw.content, darkMode := DarkMode.«class»,
             theme := raw.theme, plugins := raw.plugins },
      by simp [load, hf, parseDarkMode, h], hp⟩

/-- C9 witness: the theorem applied at the shipped configuration, whose
`plugins` is empty. -/
theorem empty_plugins_valid_witness :
    ∃ cfg, load tailwindConfig = Except.ok cfg ∧ cfg.plugins = [] :=
  empty_plugins_valid tailwindConfig rfl
    (List.cons_ne_nil _ _) (Or.inl rfl)

/-- C10: the shipped configuration file satisfies the validation policy:
its `content.files` is the non-empty sequence `["src/**/*.rs",
"index.html"]` and its `darkMode` is `"media"`, so loading it succeeds and
the error branch is not taken. -/
theorem shipped_config_loads :
    load tailwindConfig =
    Except.ok
      { content := { files := ["src/**/*.rs", "index.html"] }
        darkMode := DarkMode.media
        theme := { extend := [] }
        plugins := [] } := by
  rfl
